import Mathlib

/-!
# Verification of the chiller-dashboard core (`simulator.py`, `ai_agent.py`)

Shallow embedding of the telemetry simulator, the rule-based explainer, the
prompt builder and the explanation orchestrator of the repository, together
with proofs of the claims made by the specification about them.

Random draws (`np.random.uniform`, `random.randint`, `random.choice`) are
modelled by explicit streams passed as arguments: a function gets one draw
per (chiller index, step index) or per list position.  Machine floats are
modelled by exact rationals `ℚ`; timestamps by integer minutes.
-/

/-- One bundle of the five uniform draws consumed per telemetry sample in
`simulate_timeseries`: `ambient ~ U(28,45)`, `it_load ~ U(40,95)`,
`chw_in ~ U(5,14)`, `u_pred ~ U(0.92,1.08)`, `u_act ~ U(0.85,1.25)`. -/
structure Draws where
  ambient : ℚ
  it_load : ℚ
  chw_in : ℚ
  u_pred : ℚ
  u_act : ℚ
deriving DecidableEq

/-- The per-sample baseline power:
`base = 260 + (ambient - 30) * 10 + (it_load - 40) * 3 + (chw_in - 6) * 8`. -/
def simBase (ambient it_load chw_in : ℚ) : ℚ :=
  260 + (ambient - 30) * 10 + (it_load - 40) * 3 + (chw_in - 6) * 8

/-- One row of the simulated telemetry DataFrame (`simulator.py`, the dict
appended to `data`).  `time` is in integer minutes. -/
structure Sample where
  time : ℤ
  chiller : String
  ambient : ℚ
  it_load : ℚ
  chw_in : ℚ
  power_predicted : ℚ
  power_actual : ℚ
  anomaly_score : ℚ
deriving DecidableEq

/-- The body of the inner loop of `simulate_timeseries`: from the five draws
`d`, the current timestamp `t` and the chiller name `ch`, build one sample.
Mirrors
`base = ...; predicted = base * U(0.92,1.08); actual = base * U(0.85,1.25);`
`anomaly = (actual - predicted) / max(predicted, 1)`. -/
def mkSample (d : Draws) (t : ℤ) (ch : String) : Sample :=
  let base := simBase d.ambient d.it_load d.chw_in
  let predicted := base * d.u_pred
  let actual := base * d.u_act
  let anomaly := (actual - predicted) / max predicted 1
  { time := t
    chiller := ch
    ambient := d.ambient
    it_load := d.it_load
    chw_in := d.chw_in
    power_predicted := predicted
    power_actual := actual
    anomaly_score := anomaly }

@[simp] theorem mkSample_time (d : Draws) (t : ℤ) (ch : String) :
    (mkSample d t ch).time = t := rfl

@[simp] theorem mkSample_chiller (d : Draws) (t : ℤ) (ch : String) :
    (mkSample d t ch).chiller = ch := rfl

@[simp] theorem mkSample_ambient (d : Draws) (t : ℤ) (ch : String) :
    (mkSample d t ch).ambient = d.ambient := rfl

@[simp] theorem mkSample_it_load (d : Draws) (t : ℤ) (ch : String) :
    (mkSample d t ch).it_load = d.it_load := rfl

@[simp] theorem mkSample_chw_in (d : Draws) (t : ℤ) (ch : String) :
    (mkSample d t ch).chw_in = d.chw_in := rfl

@[simp] theorem mkSample_power_predicted (d : Draws) (t : ℤ) (ch : String) :
    (mkSample d t ch).power_predicted = simBase d.ambient d.it_load d.chw_in * d.u_pred := rfl

@[simp] theorem mkSample_power_actual (d : Draws) (t : ℤ) (ch : String) :
    (mkSample d t ch).power_actual = simBase d.ambient d.it_load d.chw_in * d.u_act := rfl

@[simp] theorem mkSample_anomaly_score (d : Draws) (t : ℤ) (ch : String) :
    (mkSample d t ch).anomaly_score =
      ((mkSample d t ch).power_actual - (mkSample d t ch).power_predicted) /
        max (mkSample d t ch).power_predicted 1 := rfl

/-- The inner loop of `simulate_timeseries` for one chiller `ch` placed at
position `ci` of the chiller list: `days * 96` samples at 15-minute steps
starting from `now - days` (in minutes: `now - days * 1440`).  The random
stream `rng` supplies the draws for step `k` of chiller `ci`. -/
def chillerBlock (rng : ℕ → ℕ → Draws) (ci : ℕ) (ch : String) (now : ℤ) (days : ℕ) :
    List Sample :=
  (List.range (days * 96)).map fun k =>
    mkSample (rng ci k) (now - days * 1440 + 15 * k) ch

/-- The outer loop of `simulate_timeseries` over the chiller list, carrying the
position index `ci` (the Python loop visits chillers in list order). -/
def simAux (rng : ℕ → ℕ → Draws) (now : ℤ) (days : ℕ) : ℕ → List String → List Sample
  | _, [] => []
  | ci, ch :: rest => chillerBlock rng ci ch now days ++ simAux rng now days (ci + 1) rest

/-- Embedding of `simulate_timeseries(chillers, days=7)` from `simulator.py`, with the random
source `rng` and the clock reading `now` (minutes) made explicit. -/
def simulate_timeseries (rng : ℕ → ℕ → Draws) (now : ℤ) (chillers : List String)
    (days : ℕ) : List Sample :=
  simAux rng now days 0 chillers

/-- The timestamps of the samples of one chiller, in generation order. -/
def chillerTimes (rng : ℕ → ℕ → Draws) (now : ℤ) (chillers : List String)
    (days : ℕ) (ch : String) : List ℤ :=
  ((simulate_timeseries rng now chillers days).filter fun s => s.chiller == ch).map
    Sample.time

/-- The stated ranges of the five uniform draws of one telemetry sample. -/
def DrawsInRange (d : Draws) : Prop :=
  28 ≤ d.ambient ∧ d.ambient ≤ 45 ∧ 40 ≤ d.it_load ∧ d.it_load ≤ 95 ∧
    5 ≤ d.chw_in ∧ d.chw_in ≤ 14 ∧ 92 / 100 ≤ d.u_pred ∧ d.u_pred ≤ 108 / 100 ∧
    85 / 100 ≤ d.u_act ∧ d.u_act ≤ 125 / 100

instance (d : Draws) : Decidable (DrawsInRange d) := by
  unfold DrawsInRange; infer_instance

/-- Model of `random.randint(lo, hi)` (both ends inclusive), fed by one natural draw. -/
def randint (lo hi : ℕ) (r : ℕ) : ℕ :=
  lo + r % (hi - lo + 1)

/-- Model of `random.choice(xs)`, fed by one natural draw. -/
def choice (xs : List String) (r : ℕ) : String :=
  xs.getD (r % xs.length) ""

/-- One row of the DataFrame built by `simulate_maintenance`. -/
structure MaintRecord where
  chiller : String
  due_days : ℕ
  priority : String
deriving DecidableEq

/-- Embedding of `simulate_maintenance(chillers)` from `simulator.py`: one record per chiller,
`due_days = random.randint(5, 180)`, `priority = random.choice([Low,Medium,High])`,
with the two random streams explicit (one draw per list position). -/
def simulate_maintenance (r1 r2 : ℕ → ℕ) (chillers : List String) : List MaintRecord :=
  chillers.enum.map fun p =>
    { chiller := p.2
      due_days := randint 5 180 (r1 p.1)
      priority := choice ["Low", "Medium", "High"] (r2 p.1) }

/-- One row of a DataFrame as consumed by `ai_agent.py`.  `time` and `chiller`
are the two non-numeric columns every dataset handed to the agent carries
(see the data model: every telemetry sample has them); all numeric cells are
reached by column name through `num`.  Which numeric columns actually exist
in a frame is recorded by `Frame.cols`. -/
structure Row where
  time : ℤ
  chiller : String
  num : String → ℚ

/-- A pandas DataFrame for the agent: the ordered column list and the rows. -/
structure Frame where
  cols : List String
  rows : List Row

/-- Pandas `series.mean()` for the column `c` of the given rows. -/
def colMean (rows : List Row) (c : String) : ℚ :=
  (rows.map fun r => r.num c).sum / rows.length

/-- The mean `(df_sel["power_actual"] - df_sel["power_predicted"]).mean()`. -/
def powerDiffMean (rows : List Row) : ℚ :=
  (rows.map fun r => r.num "power_actual" - r.num "power_predicted").sum / rows.length

/-- Python `"\n".join(text)`. -/
def joinLines : List String → String
  | [] => ""
  | [s] => s
  | s :: ss => s ++ "\n" ++ joinLines ss

/-- Topic sentence emitted when the query mentions "ambient". -/
def ambientTopic : String :=
  "• Higher ambient temperature generally forces chillers to work harder, increasing compressor power and shifting the power curve upward."

/-- Topic sentence emitted when the query mentions "it load". -/
def itLoadTopic : String :=
  "• An increase in IT load raises the heat rejection requirement, which in turn drives higher chilled-water demand and chiller power."

/-- Topic sentence emitted when the query mentions "chilled water inlet" or "chw". -/
def chwTopic : String :=
  "• Higher chilled water inlet temperature often indicates reduced heat transfer efficiency across coils, which can lead to higher power for the same load."

/-- Topic sentence emitted when the query mentions "anomaly". -/
def anomalyTopic : String :=
  "• High anomaly scores occur when the difference between predicted and actual power or other variables exceeds the learned normal band."

/-- Topic sentence emitted when the query mentions "maintenance" or "priority". -/
def maintTopic : String :=
  "• Maintenance priority is usually driven by a combination of anomaly frequency, magnitude of deviation, age/runtime of equipment, and business criticality."

/-- Topic sentence emitted when the query mentions "kpi", "threshold" or "alert". -/
def kpiTopic : String :=
  "• Health KPIs and thresholds should be tuned so that they catch early degradation without generating excessive nuisance alarms."

/-- The recognized trigger substrings of the keyword routing. -/
def triggerSubstrings : List String :=
  ["ambient", "it load", "chilled water inlet", "chw", "anomaly", "maintenance",
   "priority", "kpi", "threshold", "alert"]

/-- The keyword-routed topic bullets of `_local_rule_based_answer`
(`q_lower = query.lower()`, six `if ... in q_lower` appends, in source order). -/
def topicBullets (query : String) : List String :=
  let ql := query.toLower
  (if "ambient".data <:+: ql.data then [ambientTopic] else []) ++
    (if "it load".data <:+: ql.data then [itLoadTopic] else []) ++
    (if "chilled water inlet".data <:+: ql.data ∨ "chw".data <:+: ql.data then
      [chwTopic] else []) ++
    (if "anomaly".data <:+: ql.data then [anomalyTopic] else []) ++
    (if "maintenance".data <:+: ql.data ∨ "priority".data <:+: ql.data then
      [maintTopic] else []) ++
    (if "kpi".data <:+: ql.data ∨ "threshold".data <:+: ql.data ∨
        "alert".data <:+: ql.data then [kpiTopic] else [])

/-- Floor of a nonnegative rational, as a natural number. -/
def ratToNatFloor (q : ℚ) : ℕ :=
  q.num.toNat / q.den

/-- Left-pad a digit string with zeros up to width `n`. -/
def padZeros (n : ℕ) (s : String) : String :=
  String.mk (List.replicate (n - s.length) '0') ++ s

/-- Python fixed-point formatting `f"{x:.precf}"`, modelled on exact
rationals with round-half-up (the claims never depend on the digits). -/
def fmtFixed (prec : ℕ) (x : ℚ) : String :=
  let n := ratToNatFloor (|x| * (10 : ℚ) ^ prec + 1 / 2)
  let ip := n / 10 ^ prec
  let fp := n % 10 ^ prec
  (if x < 0 then "-" else "") ++ toString ip ++
    (if prec = 0 then "" else "." ++ padZeros prec (toString fp))

/-- The directional word, `direction = "above" if power_diff > 0 else "below"`. -/
def powerDirection (pd : ℚ) : String :=
  if 0 < pd then "above" else "below"

/-- The power data bullet of `_local_rule_based_answer`. -/
def powerBullet (pd : ℚ) : String :=
  "• On average, actual power is about " ++ fmtFixed 1 |pd| ++ " kW " ++
    powerDirection pd ++ " the predicted/design power profile."

/-- The data-driven bullets of `_local_rule_based_answer`: one bullet per
statistic whose column is present in the frame (presence is the pandas
`"c" in df_sel` check, i.e. membership in the column list). -/
def dataBullets (cols : List String) (df_sel : List Row) (chiller : String) :
    List String :=
  (if "ambient" ∈ cols then
    ["• In the current simulation, mean ambient temperature for " ++ chiller ++
      " is around " ++ fmtFixed 1 (colMean df_sel "ambient") ++ " °C."] else []) ++
    (if "it_load" ∈ cols then
      ["• The average IT load is ~" ++ fmtFixed 1 (colMean df_sel "it_load") ++
        "% of design, which influences both cooling demand and power consumption."]
     else []) ++
    (if "chw_in" ∈ cols then
      ["• The average chilled water inlet temperature is ~" ++
        fmtFixed 1 (colMean df_sel "chw_in") ++ " °C in this period."] else []) ++
    (if "anomaly_score" ∈ cols then
      ["• The mean anomaly score for " ++ chiller ++ " is " ++
        fmtFixed 3 (colMean df_sel "anomaly_score") ++
        " (positive = above expected, negative = below expected)."] else []) ++
    (if "power_actual" ∈ cols ∧ "power_predicted" ∈ cols then
      [powerBullet (powerDiffMean df_sel)] else [])

/-- The fixed list of five recommended actions. -/
def actionsList : List String :=
  ["• Verify setpoints for chilled water supply and condenser water loops.",
   "• Check strainers, filters, and heat-exchanger fouling if power is trending high.",
   "• Validate sensors (temperature, flow, power meters) for drift or calibration issues.",
   "• If anomaly counts are consistently high, review KPI thresholds and alarm logic.",
   "• For units with frequent deviations, plan targeted maintenance or inspection."]

/-- The `text` list assembly and final `"\n".join(text)` of
`_local_rule_based_answer`. -/
def assembleAnswer (query chiller : String) (bullets : List String) : String :=
  joinLines
    (["**Offline explanation for chiller " ++ chiller ++ "** *(no cloud model used)*\n",
      "**User question:** " ++ query ++ "\n",
      "### What the data suggests:"] ++ bullets ++
      ["", "### Recommended actions for operations:"] ++ actionsList)

/-- The early-return message for an empty chiller selection. -/
def noDataMsg (chiller : String) : String :=
  "For chiller " ++ chiller ++
    ", no data is available in the current simulation window. Please verify the configuration."

/-- Embedding of `_local_rule_based_answer(query, df, chiller)` from `ai_agent.py`. -/
def _local_rule_based_answer (query : String) (df : Frame) (chiller : String) : String :=
  let df_sel := df.rows.filter fun r => r.chiller == chiller
  if df_sel.isEmpty then
    noDataMsg chiller
  else
    assembleAnswer query chiller (topicBullets query ++ dataBullets df.cols df_sel chiller)

/-- The columns `_build_prompt` recognizes for projection. -/
def recognizedCols : List String :=
  ["time", "ambient", "it_load", "chw_in", "power_predicted", "power_actual",
   "anomaly_score"]

/-- The projection `keep_cols = [col for col in recent.columns if col in [...]]`. -/
def keepColsOf (df : Frame) : List String :=
  df.cols.filter fun c => c ∈ recognizedCols

/-- The selection `recent = df[df["chiller"] == chiller].sort_values("time").tail(24)`. -/
def recentRows (df : Frame) (ch : String) : List Row :=
  let sorted := (df.rows.filter fun r => r.chiller == ch).mergeSort
    fun a b => decide (a.time ≤ b.time)
  sorted.drop (sorted.length - 24)

/-- The view `recent_view = recent[keep_cols] if keep_cols else recent`, as the pair of
the projected column list and the selected rows. -/
def recentView (df : Frame) (ch : String) : List String × List Row :=
  let kc := keepColsOf df
  if kc.isEmpty then (df.cols, recentRows df ch) else (kc, recentRows df ch)

/-- One rendered cell of `recent_view.to_string(index=False)`. -/
def renderCell (r : Row) (c : String) : String :=
  if c = "time" then toString r.time
  else if c = "chiller" then r.chiller
  else fmtFixed 6 (r.num c)

/-- The plain-text table of `recent_view.to_string(index=False)`: a header
line of the column names and one line per row. -/
def renderTable (v : List String × List Row) : String :=
  joinLines (String.intercalate "  " v.1 ::
    v.2.map fun r => String.intercalate "  " (v.1.map (renderCell r)))

/-- The fixed template text of `_build_prompt` before the user query. -/
def promptHead : String :=
  "\nYou are an expert Data Center & BMS AI assistant focusing on chiller analytics.\n\nUser question:\n\"\"\""

/-- The template text between the query and the chiller name. -/
def promptMid1 : String :=
  "\"\"\"\n\nSelected chiller: "

/-- The template text between the chiller name and the telemetry table. -/
def promptMid2 : String :=
  "\n\nHere is the latest telemetry for this chiller (most recent rows at the bottom):\n\n"

/-- The fixed template text after the telemetry table. -/
def promptTail : String :=
  "\n\nColumns (if present) mean:\n- time: timestamp of the sample\n- ambient: ambient (outdoor) air temperature in °C\n- it_load: IT load (% of design)\n- chw_in: chilled water inlet temperature in °C\n- power_predicted: model-predicted power draw (design / expected)\n- power_actual: actual measured power draw\n- anomaly_score: positive = unusual/high deviation, negative = unusually low\n\nTASK:\n1. Directly answer the user\x27s question in context of this data.\n2. Explain WHY the graphs might show deviations or changes.\n3. Explicitly name which parameter(s) are driving the deviation.\n4. Explain impact for the operations team.\n5. Suggest 3–6 concrete operational actions.\n\nBe clear and concise.\n"

/-- Embedding of `_build_prompt(query, df, chiller)` from `ai_agent.py`. -/
def _build_prompt (query : String) (df : Frame) (chiller : String) : String :=
  promptHead ++ query ++ promptMid1 ++ chiller ++ promptMid2 ++
    renderTable (recentView df chiller) ++ promptTail

/-- Python truthiness of the `API_KEY` value (`None` and `""` are falsy). -/
def apiTruthy : Option String → Bool
  | none => false
  | some s => ! s.isEmpty

/-- The startup configuration of `ai_agent.py` plus the remote model boundary:
`callModel prompt` is `genai.GenerativeModel(...).generate_content(prompt)`
followed by the response-text extraction — `.ok` is the returned text,
`.error` is any raised exception. -/
structure Env where
  gemini_available : Bool
  api_key : Option String
  callModel : String → Except String String

/-- Embedding of `_call_gemini(prompt)` from `ai_agent.py`: raises (returns `.error`) when the
SDK or a truthy key is missing, otherwise performs the remote call. -/
def _call_gemini (env : Env) (prompt : String) : Except String String :=
  if env.gemini_available && apiTruthy env.api_key then
    env.callModel prompt
  else
    .error "Gemini not available or API key missing."

/-- Embedding of `ai_answer(query, df, chiller)` from `ai_agent.py`: build the prompt, try
Gemini, and on any exception fall back to the rule-based answer (the
`st.info` diagnostic is a UI side effect with no influence on the value). -/
def ai_answer (env : Env) (query : String) (df : Frame) (chiller : String) : String :=
  let prompt := _build_prompt query df chiller
  match _call_gemini env prompt with
  | .ok t => t
  | .error _ => _local_rule_based_answer query df chiller

/-- Every sample produced by the simulator loop is `mkSample` of some draw
bundle of the stream, at the scheduled timestamp. -/
theorem mem_simAux_shape {rng : ℕ → ℕ → Draws} {now : ℤ} {days : ℕ} :
    ∀ {ci : ℕ} {chillers : List String} {s : Sample},
      s ∈ simAux rng now days ci chillers →
      ∃ cj k ch, s = mkSample (rng cj k) (now - days * 1440 + 15 * k) ch := by
  intro ci chillers
  induction chillers generalizing ci with
  | nil => intro s hs; simp [simAux] at hs
  | cons ch rest ih =>
    intro s hs
    rcases List.mem_append.mp hs with h | h
    · simp only [chillerBlock, List.mem_map, List.mem_range] at h
      obtain ⟨k, _, rfl⟩ := h
      exact ⟨ci, k, ch, rfl⟩
    · exact ih h

theorem length_chillerBlock (rng : ℕ → ℕ → Draws) (ci : ℕ) (ch : String)
    (now : ℤ) (days : ℕ) : (chillerBlock rng ci ch now days).length = days * 96 := by
  simp [chillerBlock]

theorem length_simAux (rng : ℕ → ℕ → Draws) (now : ℤ) (days : ℕ) :
    ∀ (ci : ℕ) (chillers : List String),
      (simAux rng now days ci chillers).length = chillers.length * (days * 96) := by
  intro ci chillers
  induction chillers generalizing ci with
  | nil => simp [simAux]
  | cons ch rest ih =>
    simp [simAux, length_chillerBlock, ih]; ring

theorem chiller_of_mem_chillerBlock {rng : ℕ → ℕ → Draws} {ci : ℕ} {ch : String}
    {now : ℤ} {days : ℕ} {s : Sample} (h : s ∈ chillerBlock rng ci ch now days) :
    s.chiller = ch := by
  simp only [chillerBlock, List.mem_map, List.mem_range] at h
  obtain ⟨k, _, rfl⟩ := h
  rfl

theorem filter_chillerBlock_self (rng : ℕ → ℕ → Draws) (ci : ℕ) (ch : String)
    (now : ℤ) (days : ℕ) :
    (chillerBlock rng ci ch now days).filter (fun s => s.chiller == ch) =
      chillerBlock rng ci ch now days :=
  List.filter_eq_self.mpr fun s hs => by
    simp [chiller_of_mem_chillerBlock hs]

theorem filter_chillerBlock_ne {rng : ℕ → ℕ → Draws} {ci : ℕ} {ch ch' : String}
    {now : ℤ} {days : ℕ} (h : ch ≠ ch') :
    (chillerBlock rng ci ch now days).filter (fun s => s.chiller == ch') = [] :=
  List.filter_eq_nil_iff.mpr fun s hs => by
    simp [chiller_of_mem_chillerBlock hs, h]

theorem filter_simAux_not_mem {rng : ℕ → ℕ → Draws} {now : ℤ} {days : ℕ}
    {ch : String} :
    ∀ {ci : ℕ} {chillers : List String}, ch ∉ chillers →
      (simAux rng now days ci chillers).filter (fun s => s.chiller == ch) = [] := by
  intro ci chillers
  induction chillers generalizing ci with
  | nil => intro _; simp [simAux]
  | cons ch' rest ih =>
    intro h
    have h1 : ch' ≠ ch := fun e => h (e ▸ List.mem_cons_self ch' rest)
    have h2 : ch ∉ rest := fun e => h (List.mem_cons_of_mem ch' e)
    simp only [simAux, List.filter_append, filter_chillerBlock_ne h1, ih h2,
      List.append_nil]

theorem filter_simAux_mem {rng : ℕ → ℕ → Draws} {now : ℤ} {days : ℕ}
    {ch : String} :
    ∀ {ci : ℕ} {chillers : List String}, chillers.Nodup → ch ∈ chillers →
      ∃ cj, (simAux rng now days ci chillers).filter (fun s => s.chiller == ch) =
        chillerBlock rng cj ch now days := by
  intro ci chillers
  induction chillers generalizing ci with
  | nil => intro _ h; simp at h
  | cons ch' rest ih =>
    intro hnd hch
    rcases List.mem_cons.mp hch with rfl | hmem
    · refine ⟨ci, ?_⟩
      have hnr : ch ∉ rest := (List.nodup_cons.mp hnd).1
      simp only [simAux, List.filter_append, filter_chillerBlock_self,
        filter_simAux_not_mem hnr, List.append_nil]
    · have hne : ch' ≠ ch := fun e =>
        (List.nodup_cons.mp hnd).1 (e ▸ hmem)
      obtain ⟨cj, hcj⟩ := @ih (ci + 1) (List.nodup_cons.mp hnd).2 hmem
      refine ⟨cj, ?_⟩
      simp only [simAux, List.filter_append, filter_chillerBlock_ne hne, hcj,
        List.nil_append]

theorem map_time_chillerBlock (rng : ℕ → ℕ → Draws) (ci : ℕ) (ch : String)
    (now : ℤ) (days : ℕ) :
    (chillerBlock rng ci ch now days).map Sample.time =
      (List.range (days * 96)).map fun k : ℕ => now - days * 1440 + 15 * k := by
  simp [chillerBlock, List.map_map, Function.comp_def]

/-- C2: every sample produced by `simulate_timeseries` has
`anomaly_score = (power_actual - power_predicted) / max power_predicted 1`
exactly, and `power_predicted` and `power_actual` are both multiples of the
same per-sample base value `simBase ambient it_load chw_in`. -/
theorem anomaly_score_eq (rng : ℕ → ℕ → Draws) (now : ℤ) (chillers : List String)
    (days : ℕ) (s : Sample) (hs : s ∈ simulate_timeseries rng now chillers days) :
    s.anomaly_score = (s.power_actual - s.power_predicted) / max s.power_predicted 1 ∧
    ∃ u v, s.power_predicted = simBase s.ambient s.it_load s.chw_in * u ∧
      s.power_actual = simBase s.ambient s.it_load s.chw_in * v := by
  obtain ⟨cj, k, ch, rfl⟩ := mem_simAux_shape hs
  exact ⟨rfl, (rng cj k).u_pred, (rng cj k).u_act, rfl, rfl⟩

/-- A fixed in-range random stream used to instantiate the simulator claims. -/
def rngW : ℕ → ℕ → Draws := fun _ _ => ⟨30, 50, 6, 1, 1⟩

/-- The first sample generated for `simulate_timeseries rngW 0 ["CH-1"] 1`. -/
def sW : Sample := mkSample (rngW 0 0) (-1440) "CH-1"

theorem rngW_inRange : ∀ ci k, DrawsInRange (rngW ci k) := by
  intro ci k
  unfold rngW DrawsInRange
  norm_num

theorem sW_mem : sW ∈ simulate_timeseries rngW 0 ["CH-1"] 1 := by
  show sW ∈ simAux rngW 0 1 0 ["CH-1"]
  rw [simAux, simAux]
  refine List.mem_append_left _ ?_
  unfold chillerBlock
  refine List.mem_map.mpr ⟨0, by simp, ?_⟩
  unfold sW
  norm_num

/-- Witness for C2 at a concrete stream, clock and chiller list. -/
theorem anomaly_score_eq_witness :
    sW ∈ simulate_timeseries rngW 0 ["CH-1"] 1 ∧
      (sW.anomaly_score = (sW.power_actual - sW.power_predicted) /
          max sW.power_predicted 1 ∧
        ∃ u v, sW.power_predicted = simBase sW.ambient sW.it_load sW.chw_in * u ∧
          sW.power_actual = simBase sW.ambient sW.it_load sW.chw_in * v) :=
  ⟨sW_mem, anomaly_score_eq rngW 0 ["CH-1"] 1 sW sW_mem⟩

/-- C4: when every draw of the stream lies in the stated uniform ranges,
every generated sample has strictly positive predicted and actual power. -/
theorem power_positive (rng : ℕ → ℕ → Draws) (now : ℤ) (chillers : List String)
    (days : ℕ) (hr : ∀ ci k, DrawsInRange (rng ci k)) (s : Sample)
    (hs : s ∈ simulate_timeseries rng now chillers days) :
    0 < s.power_predicted ∧ 0 < s.power_actual := by
  obtain ⟨cj, k, ch, rfl⟩ := mem_simAux_shape hs
  obtain ⟨h1, h2, h3, h4, h5, h6, h7, h8, h9, h10⟩ := hr cj k
  have hb : (0 : ℚ) < simBase (rng cj k).ambient (rng cj k).it_load (rng cj k).chw_in := by
    unfold simBase; linarith
  constructor
  · rw [mkSample_power_predicted]
    exact mul_pos hb (by linarith)
  · rw [mkSample_power_actual]
    exact mul_pos hb (by linarith)

/-- Witness for C4 at a concrete in-range stream. -/
theorem power_positive_witness :
    DrawsInRange (rngW 0 0) ∧ (0 < sW.power_predicted ∧ 0 < sW.power_actual) :=
  ⟨rngW_inRange 0 0, power_positive rngW 0 ["CH-1"] 1 rngW_inRange sW sW_mem⟩

/-- C3: `simulate_timeseries chillers 7` yields exactly
`chillers.length * (7 * 96)` samples and, for every chiller of a duplicate-free
chiller list, its timestamps are strictly increasing with a fixed step of
15 minutes. -/
theorem sim_count_and_step (rng : ℕ → ℕ → Draws) (now : ℤ) (chillers : List String)
    (hne : chillers ≠ []) (hnd : chillers.Nodup) (ch : String) (hch : ch ∈ chillers) :
    (simulate_timeseries rng now chillers 7).length = chillers.length * (7 * 96) ∧
    ∀ i : ℕ, (hi : i + 1 < (chillerTimes rng now chillers 7 ch).length) →
      (chillerTimes rng now chillers 7 ch)[i] <
          (chillerTimes rng now chillers 7 ch)[i + 1] ∧
        (chillerTimes rng now chillers 7 ch)[i + 1] =
          (chillerTimes rng now chillers 7 ch)[i] + 15 := by
  constructor
  · exact length_simAux rng now 7 0 chillers
  · obtain ⟨cj, hcj⟩ := @filter_simAux_mem rng now 7 ch 0 chillers hnd hch
    have ht : chillerTimes rng now chillers 7 ch =
        (List.range (7 * 96)).map fun k : ℕ => now - (7 : ℕ) * 1440 + 15 * k := by
      unfold chillerTimes simulate_timeseries
      rw [hcj, map_time_chillerBlock]
    intro i hi
    simp only [ht] at hi ⊢
    simp only [List.length_map, List.length_range] at hi
    simp only [List.getElem_map, List.getElem_range]
    constructor
    · push_cast
      linarith
    · push_cast
      ring

/-- C9: `simulate_maintenance` returns exactly one record per chiller, in
order, and every record has `due_days` in `[5, 180]` and a priority among
Low/Medium/High, for every pair of random streams. -/
theorem maintenance_record_bounds (r1 r2 : ℕ → ℕ) (chillers : List String) :
    (simulate_maintenance r1 r2 chillers).length = chillers.length ∧
    (simulate_maintenance r1 r2 chillers).map MaintRecord.chiller = chillers ∧
    ∀ m ∈ simulate_maintenance r1 r2 chillers,
      5 ≤ m.due_days ∧ m.due_days ≤ 180 ∧
        m.priority ∈ (["Low", "Medium", "High"] : List String) := by
  refine ⟨?_, ?_, ?_⟩
  · simp [simulate_maintenance]
  · rw [simulate_maintenance, List.map_map]
    have : (MaintRecord.chiller ∘ fun p : ℕ × String =>
        ({ chiller := p.2, due_days := randint 5 180 (r1 p.1),
           priority := choice ["Low", "Medium", "High"] (r2 p.1) } : MaintRecord)) =
        Prod.snd := by
      funext p; rfl
    rw [this, List.enum_map_snd]
  · intro m hm
    simp only [simulate_maintenance, List.mem_map] at hm
    obtain ⟨p, _, rfl⟩ := hm
    refine ⟨?_, ?_, ?_⟩
    · exact Nat.le_add_right 5 _
    · have : r1 p.1 % (180 - 5 + 1) < 176 := Nat.mod_lt _ (by omega)
      simp only [randint]
      omega
    · have h3 : r2 p.1 % 3 = 0 ∨ r2 p.1 % 3 = 1 ∨ r2 p.1 % 3 = 2 := by omega
      rcases h3 with h | h | h <;> simp [choice, h]

/-- A concrete record of `simulate_maintenance` on constant-zero streams. -/
def mrecW : MaintRecord :=
  { chiller := "CH-1", due_days := 5, priority := "Low" }

/-- Witness for C9 with `chillers = ["CH-1"]`. -/
theorem maintenance_record_bounds_witness :
    mrecW ∈ simulate_maintenance (fun _ => 0) (fun _ => 0) ["CH-1"] ∧
      (5 ≤ mrecW.due_days ∧ mrecW.due_days ≤ 180 ∧
        mrecW.priority ∈ (["Low", "Medium", "High"] : List String)) :=
  ⟨by decide,
    (maintenance_record_bounds (fun _ => 0) (fun _ => 0) ["CH-1"]).2.2 mrecW (by decide)⟩

/-- Every element of the joined line list occurs as a substring of the join. -/
theorem data_joinLines_mem : ∀ (l : List String) (s : String), s ∈ l →
    s.data <:+: (joinLines l).data := by
  intro l
  induction l with
  | nil => intro s hs; simp at hs
  | cons x xs ih =>
    intro s hs
    cases xs with
    | nil =>
      rcases List.mem_singleton.mp hs with rfl
      exact List.infix_refl _
    | cons y ys =>
      rcases List.mem_cons.mp hs with rfl | hmem
      · have hj : joinLines (s :: y :: ys) = s ++ "\n" ++ joinLines (y :: ys) := rfl
        rw [hj]
        refine List.IsPrefix.isInfix ?_
        rw [String.data_append, String.data_append, List.append_assoc]
        exact List.prefix_append _ _
      · have hj : joinLines (x :: y :: ys) = x ++ "\n" ++ joinLines (y :: ys) := rfl
        rw [hj]
        refine (ih s hmem).trans ( List.IsSuffix.isInfix ?_)
        rw [String.data_append]
        exact List.suffix_append _ _

/-- The join of a non-empty tail block of lines is a suffix of the whole join. -/
theorem data_joinLines_tail : ∀ (xs ys : List String), ys ≠ [] →
    (joinLines ys).data <:+ (joinLines (xs ++ ys)).data := by
  intro xs
  induction xs with
  | nil => intro ys _; rw [List.nil_append]
  | cons x xs ih =>
    intro ys hys
    have hne : xs ++ ys ≠ [] := fun h => hys (List.append_eq_nil.mp h).2
    obtain ⟨z, zs, hz⟩ : ∃ z zs, xs ++ ys = z :: zs := by
      cases h : xs ++ ys with
      | nil => exact absurd h hne
      | cons z zs => exact ⟨z, zs, rfl⟩
    show (joinLines ys).data <:+ (joinLines (x :: (xs ++ ys))).data
    rw [hz]
    have hj : joinLines (x :: z :: zs) = x ++ "\n" ++ joinLines (z :: zs) := rfl
    rw [hj, ← hz]
    refine (ih ys hys).trans (?_)
    rw [String.data_append]
    exact List.suffix_append _ _

/-- On a nonempty chiller selection the explainer output is the assembled
report over the topic bullets followed by the data bullets. -/
theorem answer_of_ne (q : String) (df : Frame) (ch : String)
    (hne : df.rows.filter (fun r => r.chiller == ch) ≠ []) :
    _local_rule_based_answer q df ch =
      assembleAnswer q ch
        (topicBullets q ++
          dataBullets df.cols (df.rows.filter fun r => r.chiller == ch) ch) := by
  unfold _local_rule_based_answer
  rw [if_neg (by simpa using hne)]

/-- Any line of the assembled bullet list is a substring of the report. -/
theorem assemble_bullet_substr (q ch : String) (bullets : List String)
    (s : String) (hs : s ∈ bullets) :
    s.data <:+: (assembleAnswer q ch bullets).data := by
  unfold assembleAnswer
  exact data_joinLines_mem _ s
    (List.mem_append_left _ (List.mem_append_left _ (List.mem_append_right _ hs)))

/-- C7: the rule-based explainer is deterministic — two calls with identical
query, dataset and chiller return identical output text (the embedding of
`_local_rule_based_answer` consumes no random stream, unlike the simulator). -/
theorem explainer_deterministic (q1 q2 : String) (df1 df2 : Frame) (ch1 ch2 : String)
    (hq : q1 = q2) (hdf : df1 = df2) (hch : ch1 = ch2) :
    _local_rule_based_answer q1 df1 ch1 = _local_rule_based_answer q2 df2 ch2 := by
  subst hq; subst hdf; subst hch; rfl

/-- A concrete row and frames used to instantiate the explainer claims. -/
def rowW : Row := { time := 0, chiller := "CH-1", num := fun _ => 0 }

/-- A frame whose only columns are time, chiller and ambient. -/
def dfW : Frame := { cols := ["time", "chiller", "ambient"], rows := [rowW] }

theorem dfW_filter : dfW.rows.filter (fun r => r.chiller == "CH-1") = [rowW] := rfl

theorem dfW_filter_ne : dfW.rows.filter (fun r => r.chiller == "CH-1") ≠ [] := by
  rw [dfW_filter]; exact List.cons_ne_nil _ _

/-- Witness for C7 at concrete arguments. -/
theorem explainer_deterministic_witness :
    ("q" : String) = "q" ∧ dfW = dfW ∧ ("CH-1" : String) = "CH-1" ∧
      _local_rule_based_answer "q" dfW "CH-1" = _local_rule_based_answer "q" dfW "CH-1" :=
  ⟨rfl, rfl, rfl, explainer_deterministic "q" "q" dfW dfW "CH-1" "CH-1" rfl rfl rfl⟩

/-- C8: when filtering the dataset to the chiller yields zero rows, the
explainer returns the fixed no-data message, which contains the chiller
identifier and no bullet marks. -/
theorem explainer_no_data (q : String) (df : Frame) (ch : String)
    (h : df.rows.filter (fun r => r.chiller == ch) = []) :
    _local_rule_based_answer q df ch = noDataMsg ch ∧
      ch.data <:+: (_local_rule_based_answer q df ch).data ∧
      ('•' ∉ ch.data → '•' ∉ (_local_rule_based_answer q df ch).data) := by
  have hans : _local_rule_based_answer q df ch = noDataMsg ch := by
    unfold _local_rule_based_answer
    rw [if_pos (by simpa using h)]
  refine ⟨hans, ?_, ?_⟩
  · rw [hans]
    unfold noDataMsg
    rw [String.data_append, String.data_append]
    exact List.infix_append _ _ _
  · intro hch hmem
    rw [hans] at hmem
    unfold noDataMsg at hmem
    rw [String.data_append, String.data_append] at hmem
    rcases List.mem_append.mp hmem with h1 | h2
    · rcases List.mem_append.mp h1 with h1a | h1b
      · exact absurd h1a (by decide)
      · exact hch h1b
    · exact absurd h2 (by decide)

/-- An empty frame used to instantiate the no-data claim. -/
def dfEmpty : Frame := { cols := ["time", "chiller"], rows := [] }

/-- Witness for C8 on a frame with no rows. -/
theorem explainer_no_data_witness :
    dfEmpty.rows.filter (fun r => r.chiller == "CH-9") = [] ∧
      _local_rule_based_answer "q" dfEmpty "CH-9" = noDataMsg "CH-9" :=
  ⟨rfl, (explainer_no_data "q" dfEmpty "CH-9" rfl).1⟩

/-- C6: on a nonempty chiller selection, a query mentioning "ambient" (any
case) puts the ambient topic sentence in the output; a query matching no
trigger substring yields zero topic bullets (only the data-driven bullets);
and the output always ends with the fixed five-action list. -/
theorem keyword_routing (q : String) (df : Frame) (ch : String)
    (hne : df.rows.filter (fun r => r.chiller == ch) ≠ []) :
    (("ambient".data <:+: q.toLower.data) →
      ambientTopic ∈ topicBullets q ∧
        ambientTopic.data <:+: (_local_rule_based_answer q df ch).data) ∧
    ((∀ t ∈ triggerSubstrings, ¬ (t.data <:+: q.toLower.data)) →
      topicBullets q = [] ∧
        _local_rule_based_answer q df ch =
          assembleAnswer q ch
            (dataBullets df.cols (df.rows.filter fun r => r.chiller == ch) ch)) ∧
    (joinLines actionsList).data <:+ (_local_rule_based_answer q df ch).data := by
  have hans := answer_of_ne q df ch hne
  refine ⟨?_, ?_, ?_⟩
  · intro hamb
    have hmem : ambientTopic ∈ topicBullets q := by
      simp only [topicBullets]
      refine List.mem_append_left _ (List.mem_append_left _ (List.mem_append_left _
        (List.mem_append_left _ (List.mem_append_left _ ?_))))
      rw [if_pos hamb]
      exact List.mem_cons_self _ _
    refine ⟨hmem, ?_⟩
    rw [hans]
    exact assemble_bullet_substr q ch _ ambientTopic (List.mem_append_left _ hmem)
  · intro htr
    have h1 := htr "ambient" (by simp [triggerSubstrings])
    have h2 := htr "it load" (by simp [triggerSubstrings])
    have h3 := htr "chilled water inlet" (by simp [triggerSubstrings])
    have h4 := htr "chw" (by simp [triggerSubstrings])
    have h5 := htr "anomaly" (by simp [triggerSubstrings])
    have h6 := htr "maintenance" (by simp [triggerSubstrings])
    have h7 := htr "priority" (by simp [triggerSubstrings])
    have h8 := htr "kpi" (by simp [triggerSubstrings])
    have h9 := htr "threshold" (by simp [triggerSubstrings])
    have h10 := htr "alert" (by simp [triggerSubstrings])
    have htb : topicBullets q = [] := by
      simp only [topicBullets]
      rw [if_neg h1, if_neg h2, if_neg (not_or.mpr ⟨h3, h4⟩), if_neg h5,
        if_neg (not_or.mpr ⟨h6, h7⟩), if_neg (not_or.mpr ⟨h8, not_or.mpr ⟨h9, h10⟩⟩)]
      simp
    exact ⟨htb, by rw [hans, htb, List.nil_append]⟩
  · rw [hans]
    unfold assembleAnswer
    exact data_joinLines_tail _ actionsList (by decide)

/-- Witness for C6: concrete frame with one matching row. -/
theorem keyword_routing_witness :
    dfW.rows.filter (fun r => r.chiller == "CH-1") ≠ [] ∧
      (joinLines actionsList).data <:+
        (_local_rule_based_answer "why" dfW "CH-1").data :=
  ⟨dfW_filter_ne, (keyword_routing "why" dfW "CH-1" dfW_filter_ne).2.2⟩

/-- C10: the power bullet appears whenever both power columns are present, and
its directional word comes from a strict comparison — "above" exactly when the
mean difference is strictly positive, "below" when it is zero or negative. -/
theorem power_direction_strict (q : String) (df : Frame) (ch : String)
    (hpa : "power_actual" ∈ df.cols) (hpp : "power_predicted" ∈ df.cols)
    (hne : df.rows.filter (fun r => r.chiller == ch) ≠ []) :
    powerBullet (powerDiffMean (df.rows.filter fun r => r.chiller == ch)) ∈
        dataBullets df.cols (df.rows.filter fun r => r.chiller == ch) ch ∧
      (powerBullet (powerDiffMean (df.rows.filter fun r => r.chiller == ch))).data <:+:
        (_local_rule_based_answer q df ch).data ∧
      (0 < powerDiffMean (df.rows.filter fun r => r.chiller == ch) →
        powerDirection (powerDiffMean (df.rows.filter fun r => r.chiller == ch)) =
          "above") ∧
      (powerDiffMean (df.rows.filter fun r => r.chiller == ch) ≤ 0 →
        powerDirection (powerDiffMean (df.rows.filter fun r => r.chiller == ch)) =
          "below") := by
  have hmem : powerBullet (powerDiffMean (df.rows.filter fun r => r.chiller == ch)) ∈
      dataBullets df.cols (df.rows.filter fun r => r.chiller == ch) ch := by
    unfold dataBullets
    refine List.mem_append_right _ ?_
    rw [if_pos ⟨hpa, hpp⟩]
    exact List.mem_cons_self _ _
  refine ⟨hmem, ?_, ?_, ?_⟩
  · rw [answer_of_ne q df ch hne]
    exact assemble_bullet_substr q ch _ _ (List.mem_append_right _ hmem)
  · intro h; unfold powerDirection; rw [if_pos h]
  · intro h; unfold powerDirection; rw [if_neg (not_lt.mpr h)]

/-- A frame carrying both power columns. -/
def dfW2 : Frame :=
  { cols := ["time", "chiller", "power_predicted", "power_actual"], rows := [rowW] }

theorem dfW2_filter : dfW2.rows.filter (fun r => r.chiller == "CH-1") = [rowW] := rfl

theorem dfW2_filter_ne : dfW2.rows.filter (fun r => r.chiller == "CH-1") ≠ [] := by
  rw [dfW2_filter]; exact List.cons_ne_nil _ _

/-- Witness for C10: a zero mean difference is reported as "below". -/
theorem power_direction_strict_witness :
    powerDiffMean (dfW2.rows.filter fun r => r.chiller == "CH-1") ≤ 0 ∧
      powerDirection (powerDiffMean (dfW2.rows.filter fun r => r.chiller == "CH-1")) =
        "below" := by
  have hle : powerDiffMean (dfW2.rows.filter fun r => r.chiller == "CH-1") ≤ 0 := by
    rw [dfW2_filter]
    simp [powerDiffMean, rowW]
  exact ⟨hle, (power_direction_strict "q" dfW2 "CH-1" (by decide) (by decide)
    dfW2_filter_ne).2.2.2 hle⟩

/-- The projected rows of the prompt builder are sorted by time ascending. -/
theorem recentRows_sorted (df : Frame) (ch : String) :
    ((recentRows df ch).map Row.time).Pairwise (fun a b : ℤ => a ≤ b) := by
  have hs : ((df.rows.filter fun r => r.chiller == ch).mergeSort
      (fun a b => decide (a.time ≤ b.time))).Pairwise
      (fun a b => decide (a.time ≤ b.time) = true) := by
    apply List.sorted_mergeSort
    · intro a b c hab hbc
      exact decide_eq_true (le_trans (of_decide_eq_true hab) (of_decide_eq_true hbc))
    · intro a b
      rcases le_total a.time b.time with h | h <;> simp [h]
  have hd : (recentRows df ch).Pairwise
      (fun a b => decide (a.time ≤ b.time) = true) := by
    unfold recentRows
    exact List.Pairwise.sublist (List.drop_sublist _ _) hs
  rw [List.pairwise_map]
  exact hd.imp fun h => of_decide_eq_true h

/-- C5: the prompt builder keeps only rows of the selected chiller, sorted by
time ascending, at most the last 24 of them, and projects exactly the
recognized columns that are present, in the original column order of the frame;
on a frame with only time/chiller/ambient the projection is time and ambient;
the rendered table is embedded in the returned prompt. -/
theorem prompt_projection (q : String) (df : Frame) (ch : String) :
    (∀ r ∈ (recentView df ch).2, r.chiller = ch) ∧
    ((recentView df ch).2.map Row.time).Pairwise (fun a b : ℤ => a ≤ b) ∧
    (recentView df ch).2.length ≤ 24 ∧
    (recentView df ch).2 <:+
      ((df.rows.filter fun r => r.chiller == ch).mergeSort
        fun a b => decide (a.time ≤ b.time)) ∧
    (keepColsOf df ≠ [] →
      (recentView df ch).1 = df.cols.filter fun c => c ∈ recognizedCols) ∧
    (df.cols = ["time", "chiller", "ambient"] →
      (recentView df ch).1 = ["time", "ambient"]) ∧
    (renderTable (recentView df ch)).data <:+: (_build_prompt q df ch).data := by
  have hview2 : (recentView df ch).2 = recentRows df ch := by
    unfold recentView
    by_cases h : (keepColsOf df).isEmpty = true <;> simp [h]
  refine ⟨?_, ?_, ?_, ?_, ?_, ?_, ?_⟩
  · intro r hr
    rw [hview2] at hr
    unfold recentRows at hr
    have h1 := List.mem_of_mem_drop hr
    have h2 := List.mem_mergeSort.mp h1
    exact eq_of_beq (List.mem_filter.mp h2).2
  · rw [hview2]; exact recentRows_sorted df ch
  · rw [hview2]
    unfold recentRows
    simp only [List.length_drop]
    omega
  · rw [hview2]
    unfold recentRows
    exact List.drop_suffix _ _
  · intro hk
    unfold recentView
    rw [if_neg (by simpa using hk)]
    rfl
  · intro hcols
    have hk : keepColsOf df = ["time", "ambient"] := by
      unfold keepColsOf
      rw [hcols]
      rfl
    unfold recentView
    rw [hk]
    simp
  · unfold _build_prompt
    rw [String.data_append, String.data_append]
    exact List.infix_append _ _ _

/-- Witness for C5: the scenario frame with columns time, chiller, ambient. -/
theorem prompt_projection_witness :
    dfW.cols = ["time", "chiller", "ambient"] ∧
      (recentView dfW "CH-1").1 = ["time", "ambient"] ∧
      rowW.chiller = "CH-1" := by
  have hr : rowW ∈ (recentView dfW "CH-1").2 := by
    have hv : (recentView dfW "CH-1").2 = recentRows dfW "CH-1" := by
      unfold recentView
      by_cases h : (keepColsOf dfW).isEmpty = true <;> simp [h]
    rw [hv]
    unfold recentRows
    rw [dfW_filter]
    simp
  exact ⟨rfl, (prompt_projection "q" dfW "CH-1").2.2.2.2.2.1 rfl,
    (prompt_projection "q" dfW "CH-1").1 rowW hr⟩

/-- Witness for C3 with a singleton chiller list. -/
theorem sim_count_and_step_witness :
    (["CH-1"] : List String) ≠ [] ∧ (["CH-1"] : List String).Nodup ∧
      "CH-1" ∈ (["CH-1"] : List String) ∧
      (simulate_timeseries rngW 0 ["CH-1"] 7).length =
        (["CH-1"] : List String).length * (7 * 96) :=
  ⟨by decide, by decide, by decide,
    (sim_count_and_step rngW 0 ["CH-1"] (by decide) (by decide) "CH-1" (by decide)).1⟩

/-- C1: the orchestrator substitutes the rule-based answer whenever the SDK or
a truthy key is missing, and whenever the remote call fails; in every case it
returns either the fallback text or the remote text — never an exception. -/
theorem orchestrator_fallback (env : Env) (q : String) (df : Frame) (ch : String) :
    (¬ (env.gemini_available = true ∧ apiTruthy env.api_key = true) →
      ai_answer env q df ch = _local_rule_based_answer q df ch) ∧
    (∀ e, env.callModel (_build_prompt q df ch) = .error e →
      ai_answer env q df ch = _local_rule_based_answer q df ch) ∧
    (ai_answer env q df ch = _local_rule_based_answer q df ch ∨
      ∃ t, env.callModel (_build_prompt q df ch) = .ok t ∧
        ai_answer env q df ch = t) := by
  by_cases hc : (env.gemini_available && apiTruthy env.api_key) = true
  · have hgoal : ai_answer env q df ch =
        match env.callModel (_build_prompt q df ch) with
        | .ok t => t
        | .error _ => _local_rule_based_answer q df ch := by
      simp only [ai_answer, _call_gemini]
      rw [if_pos hc]
    cases hcall : env.callModel (_build_prompt q df ch) with
    | ok t =>
      have ha : ai_answer env q df ch = t := by rw [hgoal, hcall]
      refine ⟨fun hn => absurd ?_ hn, fun e he => ?_, Or.inr ⟨t, rfl, ha⟩⟩
      · simpa [Bool.and_eq_true] using hc
      · cases he
    | error e0 =>
      have ha : ai_answer env q df ch = _local_rule_based_answer q df ch := by
        rw [hgoal, hcall]
      exact ⟨fun _ => ha, fun _ _ => ha, Or.inl ha⟩
  · have ha : ai_answer env q df ch = _local_rule_based_answer q df ch := by
      simp only [ai_answer, _call_gemini]
      rw [if_neg hc]
    exact ⟨fun _ => ha, fun _ _ => ha, Or.inl ha⟩

/-- A startup configuration with no SDK, no key and an unreachable remote. -/
def envW : Env :=
  { gemini_available := false, api_key := none,
    callModel := fun _ => .error "offline" }

/-- Witness for C1: with missing credentials the orchestrator returns exactly
the rule-based answer. -/
theorem orchestrator_fallback_witness :
    ¬ (envW.gemini_available = true ∧ apiTruthy envW.api_key = true) ∧
      ai_answer envW "q" dfW "CH-1" = _local_rule_based_answer "q" dfW "CH-1" := by
  have hn : ¬ (envW.gemini_available = true ∧ apiTruthy envW.api_key = true) := by
    simp [envW, apiTruthy]
  exact ⟨hn, (orchestrator_fallback envW "q" dfW "CH-1").1 hn⟩
